import Mathlib

/-!
Verification of the workflow and access-control core of the Ideazoop
idea-submission platform.

The definitions below are a shallow embedding of the TypeScript route
handlers (src/lib/auth.ts, src/lib/supabase.ts, the idea / admin / inbox
API routes) and of the PostgreSQL notification triggers from the initial
schema migration.  Side-effecting calls (session lookup, Supabase row
queries, the external OpenAI call) are turned into explicit parameters
and list-valued tables; HTTP responses are modelled by their error label
and status code (the human-readable message string of
createErrorResponse is elided, the label and status are kept).
-/

/-- User identifiers (uuid strings in the source). -/
abbrev UserId := String

/-- Idea identifiers (uuid strings in the source). -/
abbrev IdeaId := String

/-- The user_role enum of the schema. -/
inductive UserRole
  | owner
  | admin
deriving DecidableEq, Repr

/-- The idea_status enum of the schema. -/
inductive IdeaStatus
  | draft
  | submitted
  | approved
  | rejected
deriving DecidableEq, Repr

/-- A row of the profiles table (only the fields the core logic reads). -/
structure Profile where
  id : UserId
  role : UserRole
deriving DecidableEq, Repr

/-- A row of the ideas table (only the fields the core logic reads). -/
structure Idea where
  id : IdeaId
  owner_id : UserId
  title : String
  description : String
  tags : List String
  status : IdeaStatus
deriving DecidableEq, Repr

/-- A row of the comments table. -/
structure Comment where
  id : String
  idea_id : IdeaId
  author_id : UserId
  body : String
deriving DecidableEq, Repr

/-- The jsonb meta payload of a notification, as built by the two
notification triggers. -/
inductive NotifMeta
  | commentMeta (comment_id : String) (author_id : UserId)
  | statusMeta (old_status : IdeaStatus) (new_status : IdeaStatus)
deriving DecidableEq, Repr

/-- A row of the notifications table. -/
structure Notification where
  user_id : UserId
  idea_id : IdeaId
  type : String
  meta : NotifMeta
deriving DecidableEq, Repr

/-- A row of the openai_logs table (only the fields the rate limiter
reads; created_at is an abstract instant). -/
structure OpenAiLog where
  user_id : UserId
  created_at : Nat
deriving DecidableEq, Repr

/-- The .trim() call of the submit route: drops leading and trailing
whitespace (executable model of String.prototype.trim). -/
def jsTrim (s : String) : String :=
  ⟨((s.data.dropWhile Char.isWhitespace).reverse.dropWhile Char.isWhitespace).reverse⟩

/-- Look up a profile row by id (models .from(profiles).eq(id).single()). -/
def findProfile (profiles : List Profile) (uid : UserId) : Option Profile :=
  profiles.find? (fun p => p.id == uid)

/-- Look up an idea row by id (models .from(ideas).eq(id).single()). -/
def findIdea (ideas : List Idea) (ideaId : IdeaId) : Option Idea :=
  ideas.find? (fun i => i.id == ideaId)

/-- Apply an update to the idea row with the given id, leaving the other
rows untouched (models .from(ideas).update(...).eq(id)). -/
def updateIdea (ideas : List Idea) (ideaId : IdeaId) (f : Idea → Idea) : List Idea :=
  ideas.map (fun i => if i.id = ideaId then f i else i)

/-- Result of getCurrentUser in src/lib/supabase.ts: the session user if
any, the profile row if found, and whether the error field is non-null. -/
structure GcuResult where
  user : Option UserId
  profile : Option Profile
  error : Bool
deriving DecidableEq, Repr

/-- getCurrentUser (src/lib/supabase.ts): returns (null, null, sessionError)
when the session is absent or errored; otherwise looks up the profile row
of the session user; a missing profile row yields the session user with a
null profile and a non-null error (the .single() lookup fails). -/
def getCurrentUser (sessionError : Bool) (session : Option UserId)
    (profiles : List Profile) : GcuResult :=
  if sessionError then ⟨none, none, sessionError⟩
  else
    match session with
    | none => ⟨none, none, sessionError⟩
    | some uid =>
      match findProfile profiles uid with
      | none => ⟨some uid, none, true⟩
      | some p => ⟨some uid, some p, false⟩

/-- Outcome of one of the auth wrappers in src/lib/auth.ts: either an
error response is produced, or the wrapped handler runs with the user id
and the (possibly null) profile. -/
inductive AuthCheck
  | unauthorized
  | adminRequired
  | ownerRequired
  | pass (user : UserId) (profile : Option Profile)
deriving DecidableEq, Repr

/-- withAuth (src/lib/auth.ts): rejects with 401 when getCurrentUser
reports an error or no user; otherwise the handler runs. -/
def withAuthCheck (g : GcuResult) : AuthCheck :=
  match g.user with
  | none => .unauthorized
  | some u => if g.error then .unauthorized else .pass u g.profile

/-- withAdmin (src/lib/auth.ts): rejects with 401 when getCurrentUser
reports an error or no user, with 403 when the profile is null or its
role is not admin; otherwise the handler runs. -/
def withAdminCheck (g : GcuResult) : AuthCheck :=
  match g.user with
  | none => .unauthorized
  | some u =>
    if g.error then .unauthorized
    else
      match g.profile with
      | none => .adminRequired
      | some p => if p.role = .admin then .pass u (some p) else .adminRequired

/-- withResourceOwner (src/lib/auth.ts): rejects with 401 when
getCurrentUser reports an error or no user, with 403 when the owner id
is null or the caller is neither the owner nor an admin; otherwise the
handler runs. -/
def withResourceOwnerCheck (g : GcuResult) (ownerId : Option UserId) : AuthCheck :=
  match g.user with
  | none => .unauthorized
  | some u =>
    if g.error then .unauthorized
    else
      match ownerId with
      | none => .ownerRequired
      | some oid =>
        if oid = u ∨ g.profile.map Profile.role = some .admin then .pass u g.profile
        else .ownerRequired

/-- An API response: success payload, or an error with its label and
HTTP status (the label is the error field of createErrorResponse). -/
inductive ApiResp (α : Type)
  | ok (data : α)
  | err (label : String) (status : Nat)
deriving DecidableEq, Repr

/-- The AUTH_ERRORS.UNAUTHORIZED response (401). -/
def unauthorizedResp {α : Type} : ApiResp α := .err "Unauthorized" 401

/-- The AUTH_ERRORS.ADMIN_REQUIRED response (403 Forbidden). -/
def adminRequiredResp {α : Type} : ApiResp α := .err "Forbidden" 403

/-- The AUTH_ERRORS.OWNER_REQUIRED response (403 Forbidden). -/
def ownerRequiredResp {α : Type} : ApiResp α := .err "Forbidden" 403

/-- POST /api/ideas/[id]/submit: wrapped in withResourceOwner over the
owner id of the idea row, then checks that the idea exists, that its
status is draft or rejected (else 400 Invalid Status), that its trimmed
title has at least 3 characters (else 400 Validation Error), and sets
the status to submitted.  Returns the response and the ideas table after
the call. -/
def submitRoute (sessionError : Bool) (session : Option UserId)
    (profiles : List Profile) (ideas : List Idea) (ideaId : IdeaId) :
    ApiResp Idea × List Idea :=
  let g := getCurrentUser sessionError session profiles
  let ownerId := (findIdea ideas ideaId).map Idea.owner_id
  match withResourceOwnerCheck g ownerId with
  | .unauthorized => (unauthorizedResp, ideas)
  | .adminRequired => (adminRequiredResp, ideas)
  | .ownerRequired => (ownerRequiredResp, ideas)
  | .pass _ _ =>
    match findIdea ideas ideaId with
    | none => (.err "Not Found" 404, ideas)
    | some idea =>
      if idea.status ≠ .draft ∧ idea.status ≠ .rejected then
        (.err "Invalid Status" 400, ideas)
      else if (jsTrim idea.title).length < 3 then
        (.err "Validation Error" 400, ideas)
      else
        (.ok { idea with status := .submitted },
         updateIdea ideas ideaId (fun i => { i with status := .submitted }))

/-- DELETE /api/ideas/[id]: wrapped in withResourceOwner over the owner
id of the idea row, then checks that the idea exists (else 404) and that
its status is draft (else 403 Forbidden), and removes the row.  Returns
the response (ok true models the success body) and the ideas table after
the call. -/
def deleteRoute (sessionError : Bool) (session : Option UserId)
    (profiles : List Profile) (ideas : List Idea) (ideaId : IdeaId) :
    ApiResp Bool × List Idea :=
  let g := getCurrentUser sessionError session profiles
  let ownerId := (findIdea ideas ideaId).map Idea.owner_id
  match withResourceOwnerCheck g ownerId with
  | .unauthorized => (unauthorizedResp, ideas)
  | .adminRequired => (adminRequiredResp, ideas)
  | .ownerRequired => (ownerRequiredResp, ideas)
  | .pass _ _ =>
    match findIdea ideas ideaId with
    | none => (.err "Not Found" 404, ideas)
    | some idea =>
      if idea.status ≠ .draft then (.err "Forbidden" 403, ideas)
      else (.ok true, ideas.filter (fun i => i.id != ideaId))

/-- canModifyIdea (src/lib/auth.ts): false without a user or without the
idea row; true when the caller has role admin and the idea is submitted,
or when the caller owns the idea and it is draft or rejected. -/
def canModifyIdea (g : GcuResult) (ideas : List Idea) (ideaId : IdeaId) : Bool :=
  match g.user with
  | none => false
  | some uid =>
    match findIdea ideas ideaId with
    | none => false
    | some idea =>
      if g.profile.map Profile.role = some .admin ∧ idea.status = .submitted then true
      else if idea.owner_id = uid ∧ (idea.status = .draft ∨ idea.status = .rejected) then
        true
      else false

/-- The body of PUT /api/ideas/[id]: a partial update of title,
description and tags. -/
structure UpdateBody where
  title : Option String
  description : Option String
  tags : Option (List String)
deriving DecidableEq, Repr

/-- The zod updateIdeaSchema: title, when present, 3 to 100 characters;
description, when present, at least 10 characters; tags unconstrained. -/
def updateBodyValid (b : UpdateBody) : Bool :=
  (match b.title with
   | none => true
   | some t => decide (3 ≤ t.length) && decide (t.length ≤ 100)) &&
  (match b.description with
   | none => true
   | some d => decide (10 ≤ d.length))

/-- The update object built by the PUT handler: a field is written only
when its value is truthy in JavaScript (an empty string is skipped, an
empty tag array is truthy and is written). -/
def applyUpdate (idea : Idea) (b : UpdateBody) : Idea :=
  { idea with
    title :=
      match b.title with
      | some t => if t.length = 0 then idea.title else t
      | none => idea.title
    description :=
      match b.description with
      | some d => if d.length = 0 then idea.description else d
      | none => idea.description
    tags :=
      match b.tags with
      | some ts => ts
      | none => idea.tags }

/-- PUT /api/ideas/[id]: wrapped in withResourceOwner over the owner id
of the idea row, then gated by canModifyIdea (else 403 Forbidden), then
the body is validated by the zod schema (a parse failure is answered
with 400 Validation Error), and the present fields are written.  Returns
the response and the ideas table after the call. -/
def putRoute (sessionError : Bool) (session : Option UserId)
    (profiles : List Profile) (ideas : List Idea) (ideaId : IdeaId)
    (body : UpdateBody) : ApiResp Idea × List Idea :=
  let g := getCurrentUser sessionError session profiles
  let ownerId := (findIdea ideas ideaId).map Idea.owner_id
  match withResourceOwnerCheck g ownerId with
  | .unauthorized => (unauthorizedResp, ideas)
  | .adminRequired => (adminRequiredResp, ideas)
  | .ownerRequired => (ownerRequiredResp, ideas)
  | .pass _ _ =>
    if canModifyIdea g ideas ideaId then
      if updateBodyValid body then
        match findIdea ideas ideaId with
        | none => (.err "Database Error" 500, ideas)
        | some idea =>
          (.ok (applyUpdate idea body),
           updateIdea ideas ideaId (fun i => applyUpdate i body))
      else (.err "Validation Error" 400, ideas)
    else (.err "Forbidden" 403, ideas)

/-- The action field of an admin decision body. -/
inductive DecisionAction
  | approve
  | reject
deriving DecidableEq, Repr

/-- The body of POST /api/admin/ideas/[id]/decision. -/
structure DecisionBody where
  action : DecisionAction
  comment : String
deriving DecidableEq, Repr

/-- The comment constraint of the zod decisionSchema: at least 3 and at
most 1000 characters. -/
def decisionBodyValid (b : DecisionBody) : Bool :=
  decide (3 ≤ b.comment.length) && decide (b.comment.length ≤ 1000)

/-- Outcome of a decision call: the response and the ideas and comments
tables after the call. -/
structure DecisionOutcome where
  response : ApiResp Idea
  ideas : List Idea
  comments : List Comment
deriving DecidableEq, Repr

/-- POST /api/admin/ideas/[id]/decision: wrapped in withAdmin, then the
body is parsed by the zod decisionSchema (a parse failure is answered
with 400 Validation Error before the idea is fetched), then the idea is
fetched (else 404) and must be in submitted status (else 400 Invalid
Status); the status is updated to approved or rejected, and the
mandatory comment is inserted; a comment-insert failure (modelled by the
commentInsertFails flag) is logged and the call still answers with the
updated idea. -/
def decisionRoute (sessionError : Bool) (session : Option UserId)
    (profiles : List Profile) (ideas : List Idea) (comments : List Comment)
    (ideaId : IdeaId) (body : DecisionBody) (commentInsertFails : Bool)
    (newCommentId : String) : DecisionOutcome :=
  let g := getCurrentUser sessionError session profiles
  match withAdminCheck g with
  | .unauthorized => ⟨unauthorizedResp, ideas, comments⟩
  | .adminRequired => ⟨adminRequiredResp, ideas, comments⟩
  | .ownerRequired => ⟨ownerRequiredResp, ideas, comments⟩
  | .pass u _ =>
    if decisionBodyValid body then
      match findIdea ideas ideaId with
      | none => ⟨.err "Not Found" 404, ideas, comments⟩
      | some idea =>
        if idea.status ≠ .submitted then ⟨.err "Invalid Status" 400, ideas, comments⟩
        else
          let newStatus :=
            match body.action with
            | .approve => IdeaStatus.approved
            | .reject => IdeaStatus.rejected
          ⟨.ok { idea with status := newStatus },
           updateIdea ideas ideaId (fun i => { i with status := newStatus }),
           if commentInsertFails then comments
           else comments ++ [⟨newCommentId, ideaId, u, body.comment⟩]⟩
    else ⟨.err "Validation Error" 400, ideas, comments⟩

/-- The handle_new_comment trigger of the initial schema migration: the
notification type is admin_comment for an admin author and user_comment
otherwise; the idea owner is notified when the author is not the owner;
all admins are notified with new_comment when the author role is not
admin.  The two selects into local variables are modelled by Option
lookups; per the three-valued SQL semantics, a null author role makes
the admin-broadcast condition unknown, so no broadcast happens, and a
null owner id (no idea row) skips the owner notification. -/
def handle_new_comment (profiles : List Profile) (ideas : List Idea)
    (c : Comment) : List Notification :=
  let ideaOwnerId := (findIdea ideas c.idea_id).map Idea.owner_id
  let authorRole := (findProfile profiles c.author_id).map Profile.role
  let notificationType :=
    if authorRole = some .admin then "admin_comment" else "user_comment"
  let ownerNotifs :=
    match ideaOwnerId with
    | some oid =>
      if c.author_id ≠ oid then
        [⟨oid, c.idea_id, notificationType, .commentMeta c.id c.author_id⟩]
      else []
    | none => []
  let adminBroadcast :=
    match authorRole with
    | some r =>
      if r ≠ .admin then
        (profiles.filter (fun p => p.role == .admin)).map
          (fun p =>
            ⟨p.id, c.idea_id, "new_comment", NotifMeta.commentMeta c.id c.author_id⟩)
      else []
    | none => []
  ownerNotifs ++ adminBroadcast

/-- The handle_idea_status_change trigger of the initial schema
migration: when the status of the updated row changed, one notification
of type status_change with the old and new status is inserted for the
idea owner; otherwise nothing is inserted. -/
def handle_idea_status_change (oldRow newRow : Idea) : List Notification :=
  if oldRow.status ≠ newRow.status then
    [⟨newRow.owner_id, newRow.id, "status_change",
      .statusMeta oldRow.status newRow.status⟩]
  else []

/-- The body of POST /api/ai/idea-helper. -/
structure AiBody where
  title : String
  description : String
deriving DecidableEq, Repr

/-- The zod ideaHelperSchema: title 1 to 100 characters, description at
least 1 character. -/
def aiBodyValid (b : AiBody) : Bool :=
  decide (1 ≤ b.title.length) && decide (b.title.length ≤ 100) &&
  decide (1 ≤ b.description.length)

/-- Possible behaviours of the external OpenAI call: a response that
fails JSON.parse, one whose structure lacks improvedCopy or a tags
array, or a well-formed one. -/
inductive AiExternalResp
  | unparseable
  | badStructure
  | good (improvedCopy : String) (tags : List String)
deriving DecidableEq, Repr

/-- The rate-limit count of the idea-helper route: the number of
openai_logs rows of the user with created_at at or after the start of
the current server day. -/
def countTodayLogs (logs : List OpenAiLog) (uid : UserId) (dayStart : Nat) : Nat :=
  (logs.filter (fun l => l.user_id == uid && decide (dayStart ≤ l.created_at))).length

/-- Outcome of an idea-helper call: the response (improved copy and
tags on success) and whether the external OpenAI service was invoked.
The write of the openai_logs audit row is elided. -/
structure AiOutcome where
  response : ApiResp (String × List String)
  externalCalled : Bool
deriving DecidableEq, Repr

/-- POST /api/ai/idea-helper: wrapped in withAuth, then the body is
validated, then the daily usage count is compared against the daily
limit: at or above the limit the call is answered with 429 Rate Limit
Exceeded and the external service is not invoked; below the limit the
external service is invoked and its response is parsed, a malformed
response yielding 500 AI Service Error, a well-formed one yielding the
improved copy with the tags trimmed and truncated to 5 entries. -/
def ideaHelperRoute (sessionError : Bool) (session : Option UserId)
    (profiles : List Profile) (logs : List OpenAiLog) (dayStart : Nat)
    (dailyLimit : Nat) (body : AiBody) (ext : AiExternalResp) : AiOutcome :=
  let g := getCurrentUser sessionError session profiles
  match withAuthCheck g with
  | .pass u _ =>
    if aiBodyValid body then
      if dailyLimit ≤ countTodayLogs logs u dayStart then
        ⟨.err "Rate Limit Exceeded" 429, false⟩
      else
        match ext with
        | .unparseable => ⟨.err "AI Service Error" 500, true⟩
        | .badStructure => ⟨.err "AI Service Error" 500, true⟩
        | .good copy tags => ⟨.ok (copy, (tags.map jsTrim).take 5), true⟩
    else ⟨.err "Validation Error" 400, false⟩
  | _ => ⟨unauthorizedResp, false⟩

/-- C1: a submit call by the owner of the idea succeeds, setting the
status to submitted, exactly when the current status is draft or
rejected and the trimmed title has at least 3 characters; from submitted
or approved status it fails with Invalid Status leaving the table
unchanged; from draft or rejected status with a trimmed title shorter
than 3 characters it fails with Validation Error leaving the table
unchanged. -/
theorem submit_status_and_title_gate
    (profiles : List Profile) (ideas : List Idea) (uid : UserId) (ideaId : IdeaId)
    (p : Profile) (idea : Idea)
    (hp : findProfile profiles uid = some p)
    (hi : findIdea ideas ideaId = some idea)
    (hown : idea.owner_id = uid) :
    ((idea.status = .draft ∨ idea.status = .rejected) →
      3 ≤ (jsTrim idea.title).length →
      submitRoute false (some uid) profiles ideas ideaId =
        (.ok { idea with status := .submitted },
         updateIdea ideas ideaId (fun i => { i with status := .submitted }))) ∧
    ((idea.status = .submitted ∨ idea.status = .approved) →
      submitRoute false (some uid) profiles ideas ideaId =
        (.err "Invalid Status" 400, ideas)) ∧
    ((idea.status = .draft ∨ idea.status = .rejected) →
      (jsTrim idea.title).length < 3 →
      submitRoute false (some uid) profiles ideas ideaId =
        (.err "Validation Error" 400, ideas)) := by
  refine ⟨?_, ?_, ?_⟩
  · intro hst htitle
    rcases hst with h | h <;>
      simp [submitRoute, getCurrentUser, hp, withResourceOwnerCheck, hi, hown, h,
        Nat.not_lt.mpr htitle]
  · intro hst
    rcases hst with h | h <;>
      simp [submitRoute, getCurrentUser, hp, withResourceOwnerCheck, hi, hown, h]
  · intro hst htitle
    rcases hst with h | h <;>
      simp [submitRoute, getCurrentUser, hp, withResourceOwnerCheck, hi, hown, h, htitle]

/-- C1 witness: the theorem applied to a one-user one-idea table, whose
draft idea with a 3-character title is submitted by its owner. -/
theorem submit_status_and_title_gate_witness :
    (((⟨"i1", "alice", "abc", "d", [], .draft⟩ : Idea).status = .draft ∨
        (⟨"i1", "alice", "abc", "d", [], .draft⟩ : Idea).status = .rejected) →
      3 ≤ (jsTrim (⟨"i1", "alice", "abc", "d", [], .draft⟩ : Idea).title).length →
      submitRoute false (some "alice") [⟨"alice", .owner⟩]
          [⟨"i1", "alice", "abc", "d", [], .draft⟩] "i1" =
        (.ok { (⟨"i1", "alice", "abc", "d", [], .draft⟩ : Idea) with
                status := .submitted },
         updateIdea [⟨"i1", "alice", "abc", "d", [], .draft⟩] "i1"
           (fun i => { i with status := .submitted }))) ∧
    (((⟨"i1", "alice", "abc", "d", [], .draft⟩ : Idea).status = .submitted ∨
        (⟨"i1", "alice", "abc", "d", [], .draft⟩ : Idea).status = .approved) →
      submitRoute false (some "alice") [⟨"alice", .owner⟩]
          [⟨"i1", "alice", "abc", "d", [], .draft⟩] "i1" =
        (.err "Invalid Status" 400, [⟨"i1", "alice", "abc", "d", [], .draft⟩])) ∧
    (((⟨"i1", "alice", "abc", "d", [], .draft⟩ : Idea).status = .draft ∨
        (⟨"i1", "alice", "abc", "d", [], .draft⟩ : Idea).status = .rejected) →
      (jsTrim (⟨"i1", "alice", "abc", "d", [], .draft⟩ : Idea).title).length < 3 →
      submitRoute false (some "alice") [⟨"alice", .owner⟩]
          [⟨"i1", "alice", "abc", "d", [], .draft⟩] "i1" =
        (.err "Validation Error" 400, [⟨"i1", "alice", "abc", "d", [], .draft⟩])) :=
  submit_status_and_title_gate [⟨"alice", .owner⟩]
    [⟨"i1", "alice", "abc", "d", [], .draft⟩] "alice" "i1"
    ⟨"alice", .owner⟩ ⟨"i1", "alice", "abc", "d", [], .draft⟩
    (by decide) (by decide) (by decide)

/-- C10: the shared withResourceOwner guard admits any admin, so an
admin who is not the owner of a draft or rejected idea with a valid
title can submit it on the behalf of the owner. -/
theorem admin_can_submit_foreign_idea
    (profiles : List Profile) (ideas : List Idea) (adminId : UserId)
    (ideaId : IdeaId) (pa : Profile) (idea : Idea)
    (hp : findProfile profiles adminId = some pa)
    (hrole : pa.role = .admin)
    (hi : findIdea ideas ideaId = some idea)
    (hne : adminId ≠ idea.owner_id)
    (hst : idea.status = .draft ∨ idea.status = .rejected)
    (htitle : 3 ≤ (jsTrim idea.title).length) :
    withResourceOwnerCheck (getCurrentUser false (some adminId) profiles)
        ((findIdea ideas ideaId).map Idea.owner_id) = .pass adminId (some pa) ∧
    submitRoute false (some adminId) profiles ideas ideaId =
      (.ok { idea with status := .submitted },
       updateIdea ideas ideaId (fun i => { i with status := .submitted })) := by
  constructor
  · simp [withResourceOwnerCheck, getCurrentUser, hp, hi, hrole]
  · rcases hst with h | h <;>
      simp [submitRoute, getCurrentUser, hp, withResourceOwnerCheck, hi, hrole, h,
        Nat.not_lt.mpr htitle]

/-- C10 witness: the theorem applied to an admin submitting the draft
idea of another user. -/
theorem admin_can_submit_foreign_idea_witness :
    withResourceOwnerCheck
        (getCurrentUser false (some "boss") [⟨"boss", .admin⟩, ⟨"alice", .owner⟩])
        ((findIdea [⟨"i1", "alice", "abc", "d", [], .draft⟩] "i1").map Idea.owner_id) =
      .pass "boss" (some ⟨"boss", .admin⟩) ∧
    submitRoute false (some "boss") [⟨"boss", .admin⟩, ⟨"alice", .owner⟩]
        [⟨"i1", "alice", "abc", "d", [], .draft⟩] "i1" =
      (.ok { (⟨"i1", "alice", "abc", "d", [], .draft⟩ : Idea) with status := .submitted },
       updateIdea [⟨"i1", "alice", "abc", "d", [], .draft⟩] "i1"
         (fun i => { i with status := .submitted })) :=
  admin_can_submit_foreign_idea [⟨"boss", .admin⟩, ⟨"alice", .owner⟩]
    [⟨"i1", "alice", "abc", "d", [], .draft⟩] "boss" "i1"
    ⟨"boss", .admin⟩ ⟨"i1", "alice", "abc", "d", [], .draft⟩
    (by decide) (by decide) (by decide) (by decide) (by decide) (by decide)

/-- C5 counterexample: a caller with a valid session but no profile row
is answered 401 by withAuth, because getCurrentUser reports the failed
profile lookup in its error field and withAuth rejects on any error, so
the handler does not run for such a caller. -/
theorem profile_missing_unauthorized_cex :
    getCurrentUser false (some "u1") [] = ⟨some "u1", none, true⟩ ∧
    withAuthCheck (getCurrentUser false (some "u1") []) = .unauthorized := by
  decide

/-- C5 amended: for every caller with a valid session and no profile
row, getCurrentUser returns the session user with a null profile and a
non-null error, and withAuth treats that error as an authentication
failure, answering 401 instead of running the handler with a null
role. -/
theorem profile_missing_rejected_by_withAuth
    (uid : UserId) (profiles : List Profile)
    (hnone : findProfile profiles uid = none) :
    getCurrentUser false (some uid) profiles = ⟨some uid, none, true⟩ ∧
    withAuthCheck (getCurrentUser false (some uid) profiles) = .unauthorized := by
  simp [getCurrentUser, hnone, withAuthCheck]

/-- C5 witness: the amended theorem applied to a session user absent
from a nonempty profiles table. -/
theorem profile_missing_rejected_by_withAuth_witness :
    getCurrentUser false (some "u1") [⟨"u2", .owner⟩] = ⟨some "u1", none, true⟩ ∧
    withAuthCheck (getCurrentUser false (some "u1") [⟨"u2", .owner⟩]) = .unauthorized :=
  profile_missing_rejected_by_withAuth "u1" [⟨"u2", .owner⟩] (by decide)

/-- C3 counterexample: an admin who does not own a draft idea deletes it
successfully, because the withResourceOwner guard admits admins and the
handler only checks the draft status. -/
theorem delete_admin_nonowner_cex :
    deleteRoute false (some "boss") [⟨"boss", .admin⟩, ⟨"alice", .owner⟩]
        [⟨"i1", "alice", "My idea", "d", [], .draft⟩] "i1" = (.ok true, []) := by
  decide

/-- C3 amended: for an authenticated caller with a profile and an
existing idea, DELETE succeeds and removes the row exactly when the
caller is the owner or has role admin and the idea is draft; a caller
who is neither owner nor admin is answered 403 Forbidden with the table
unchanged, and an owner-or-admin caller on a non-draft idea is answered
403 Forbidden with the table unchanged. -/
theorem delete_owner_or_admin_draft_only
    (profiles : List Profile) (ideas : List Idea) (uid : UserId) (ideaId : IdeaId)
    (p : Profile) (idea : Idea)
    (hp : findProfile profiles uid = some p)
    (hi : findIdea ideas ideaId = some idea) :
    ((idea.owner_id = uid ∨ p.role = .admin) → idea.status = .draft →
      deleteRoute false (some uid) profiles ideas ideaId =
        (.ok true, ideas.filter (fun i => i.id != ideaId))) ∧
    (¬(idea.owner_id = uid ∨ p.role = .admin) →
      deleteRoute false (some uid) profiles ideas ideaId =
        (.err "Forbidden" 403, ideas)) ∧
    ((idea.owner_id = uid ∨ p.role = .admin) → idea.status ≠ .draft →
      deleteRoute false (some uid) profiles ideas ideaId =
        (.err "Forbidden" 403, ideas)) := by
  refine ⟨?_, ?_, ?_⟩
  · intro hcan hdraft
    rcases hcan with h | h <;>
      simp [deleteRoute, getCurrentUser, hp, withResourceOwnerCheck, hi, h, hdraft]
  · intro hno
    obtain ⟨h1, h2⟩ := not_or.mp hno
    simp [deleteRoute, getCurrentUser, hp, withResourceOwnerCheck, hi, h1, h2,
      ownerRequiredResp]
  · intro hcan hnd
    rcases hcan with h | h <;>
      simp [deleteRoute, getCurrentUser, hp, withResourceOwnerCheck, hi, h, hnd]

/-- C3 amended witness: the theorem applied to the owner of a draft
idea, who deletes it successfully. -/
theorem delete_owner_or_admin_draft_only_witness :
    (((⟨"i1", "alice", "My idea", "d", [], .draft⟩ : Idea).owner_id = "alice" ∨
        (⟨"alice", UserRole.owner⟩ : Profile).role = .admin) →
      (⟨"i1", "alice", "My idea", "d", [], .draft⟩ : Idea).status = .draft →
      deleteRoute false (some "alice") [⟨"alice", .owner⟩]
          [⟨"i1", "alice", "My idea", "d", [], .draft⟩] "i1" =
        (.ok true,
         List.filter (fun i => i.id != "i1") [⟨"i1", "alice", "My idea", "d", [], .draft⟩])) ∧
    (¬((⟨"i1", "alice", "My idea", "d", [], .draft⟩ : Idea).owner_id = "alice" ∨
        (⟨"alice", UserRole.owner⟩ : Profile).role = .admin) →
      deleteRoute false (some "alice") [⟨"alice", .owner⟩]
          [⟨"i1", "alice", "My idea", "d", [], .draft⟩] "i1" =
        (.err "Forbidden" 403, [⟨"i1", "alice", "My idea", "d", [], .draft⟩])) ∧
    (((⟨"i1", "alice", "My idea", "d", [], .draft⟩ : Idea).owner_id = "alice" ∨
        (⟨"alice", UserRole.owner⟩ : Profile).role = .admin) →
      (⟨"i1", "alice", "My idea", "d", [], .draft⟩ : Idea).status ≠ .draft →
      deleteRoute false (some "alice") [⟨"alice", .owner⟩]
          [⟨"i1", "alice", "My idea", "d", [], .draft⟩] "i1" =
        (.err "Forbidden" 403, [⟨"i1", "alice", "My idea", "d", [], .draft⟩])) :=
  delete_owner_or_admin_draft_only [⟨"alice", .owner⟩]
    [⟨"i1", "alice", "My idea", "d", [], .draft⟩] "alice" "i1"
    ⟨"alice", .owner⟩ ⟨"i1", "alice", "My idea", "d", [], .draft⟩
    (by decide) (by decide)

/-- C2: evaluation of the code at the failing input: an admin who does
not own a submitted idea changes its title through PUT, because the
withResourceOwner guard admits admins, canModifyIdea returns true for an
admin on a submitted idea, and the PUT handler then writes the content
fields; this contradicts the code comment in canModifyIdea that admins
modify submitted ideas status only. -/
theorem put_admin_edits_submitted_content :
    putRoute false (some "boss") [⟨"boss", .admin⟩, ⟨"alice", .owner⟩]
        [⟨"i1", "alice", "Old title", "Long description", [], .submitted⟩] "i1"
        ⟨some "New title set by admin", none, none⟩ =
      (.ok ⟨"i1", "alice", "New title set by admin", "Long description", [], .submitted⟩,
       [⟨"i1", "alice", "New title set by admin", "Long description", [], .submitted⟩]) := by
  decide

/-- C4 counterexample: a decision on a draft idea with a 2-character
comment is answered 400 Validation Error, not 400 Invalid Status,
because the zod schema parse of the body happens before the idea is
fetched and its status checked. -/
theorem decision_validation_before_status_cex :
    decisionRoute false (some "boss") [⟨"boss", .admin⟩, ⟨"alice", .owner⟩]
        [⟨"i1", "alice", "Title", "d", [], .draft⟩] [] "i1"
        ⟨.approve, "hi"⟩ false "c1" =
      ⟨.err "Validation Error" 400, [⟨"i1", "alice", "Title", "d", [], .draft⟩], []⟩ := by
  decide

/-- C4 amended: for an admin decision on an existing idea whose status
is not submitted, the comment-length validation runs before the status
check: an invalid comment is answered 400 Validation Error regardless of
the idea status, and a valid comment is answered 400 Invalid Status; in
both cases no write occurs. -/
theorem decision_nonsubmitted_checks_order
    (profiles : List Profile) (ideas : List Idea) (comments : List Comment)
    (uid : UserId) (ideaId : IdeaId) (p : Profile) (idea : Idea)
    (body : DecisionBody) (cif : Bool) (cid : String)
    (hp : findProfile profiles uid = some p)
    (hrole : p.role = .admin)
    (hi : findIdea ideas ideaId = some idea)
    (hst : idea.status ≠ .submitted) :
    (decisionBodyValid body = false →
      decisionRoute false (some uid) profiles ideas comments ideaId body cif cid =
        ⟨.err "Validation Error" 400, ideas, comments⟩) ∧
    (decisionBodyValid body = true →
      decisionRoute false (some uid) profiles ideas comments ideaId body cif cid =
        ⟨.err "Invalid Status" 400, ideas, comments⟩) := by
  constructor <;> intro hv <;>
    simp [decisionRoute, getCurrentUser, hp, withAdminCheck, hrole, hi, hst, hv]

/-- C4 amended witness: the theorem applied to a draft idea and an
invalid 2-character comment, for which the first conjunct applies. -/
theorem decision_nonsubmitted_checks_order_witness :
    (decisionBodyValid ⟨.approve, "ok"⟩ = false →
      decisionRoute false (some "boss") [⟨"boss", .admin⟩, ⟨"alice", .owner⟩]
          [⟨"i1", "alice", "Title", "d", [], .draft⟩] [] "i1"
          ⟨.approve, "ok"⟩ false "c1" =
        ⟨.err "Validation Error" 400, [⟨"i1", "alice", "Title", "d", [], .draft⟩], []⟩) ∧
    (decisionBodyValid ⟨.approve, "ok"⟩ = true →
      decisionRoute false (some "boss") [⟨"boss", .admin⟩, ⟨"alice", .owner⟩]
          [⟨"i1", "alice", "Title", "d", [], .draft⟩] [] "i1"
          ⟨.approve, "ok"⟩ false "c1" =
        ⟨.err "Invalid Status" 400, [⟨"i1", "alice", "Title", "d", [], .draft⟩], []⟩) :=
  decision_nonsubmitted_checks_order [⟨"boss", .admin⟩, ⟨"alice", .owner⟩]
    [⟨"i1", "alice", "Title", "d", [], .draft⟩] [] "boss" "i1"
    ⟨"boss", .admin⟩ ⟨"i1", "alice", "Title", "d", [], .draft⟩
    ⟨.approve, "ok"⟩ false "c1" (by decide) (by decide) (by decide) (by decide)

/-- C6: when the comment insert of an admin decision fails after the
status update succeeded, the status change stands in the ideas table,
the comments table is unchanged, and the call still reports success with
the updated idea. -/
theorem decision_comment_failure_keeps_status
    (profiles : List Profile) (ideas : List Idea) (comments : List Comment)
    (uid : UserId) (ideaId : IdeaId) (p : Profile) (idea : Idea)
    (body : DecisionBody) (cid : String)
    (hp : findProfile profiles uid = some p)
    (hrole : p.role = .admin)
    (hi : findIdea ideas ideaId = some idea)
    (hst : idea.status = .submitted)
    (hv : decisionBodyValid body = true) :
    decisionRoute false (some uid) profiles ideas comments ideaId body true cid =
      ⟨.ok { idea with
              status := match body.action with
                | .approve => .approved
                | .reject => .rejected },
       updateIdea ideas ideaId
         (fun i => { i with
            status := match body.action with
              | .approve => .approved
              | .reject => .rejected }),
       comments⟩ := by
  simp [decisionRoute, getCurrentUser, hp, withAdminCheck, hrole, hi, hst, hv]

/-- C6 witness: the theorem applied to an approval with a failing
comment insert: the idea becomes approved, the comments stay empty, the
response is success. -/
theorem decision_comment_failure_keeps_status_witness :
    decisionRoute false (some "boss") [⟨"boss", .admin⟩, ⟨"alice", .owner⟩]
        [⟨"i1", "alice", "Title", "d", [], .submitted⟩] [] "i1"
        ⟨.approve, "Looks great, approved."⟩ true "c1" =
      ⟨.ok { (⟨"i1", "alice", "Title", "d", [], .submitted⟩ : Idea) with
              status := match DecisionAction.approve with
                | .approve => .approved
                | .reject => .rejected },
       updateIdea [⟨"i1", "alice", "Title", "d", [], .submitted⟩] "i1"
         (fun i => { i with
            status := match DecisionAction.approve with
              | .approve => .approved
              | .reject => .rejected }),
       []⟩ :=
  decision_comment_failure_keeps_status [⟨"boss", .admin⟩, ⟨"alice", .owner⟩]
    [⟨"i1", "alice", "Title", "d", [], .submitted⟩] [] "boss" "i1"
    ⟨"boss", .admin⟩ ⟨"i1", "alice", "Title", "d", [], .submitted⟩
    ⟨.approve, "Looks great, approved."⟩ "c1"
    (by decide) (by decide) (by decide) (by decide) (by decide)

/-- Helper: two successive filters commute. -/
theorem filter_swap {α : Type} (p q : α → Bool) (l : List α) :
    (l.filter p).filter q = (l.filter q).filter p := by
  induction l with
  | nil => rfl
  | cons x t ih =>
    by_cases hp : p x <;> by_cases hq : q x <;>
      simp [List.filter_cons, hp, hq, ih]

/-- Helper: in a table whose ids are pairwise distinct, filtering on the
id of a member row yields exactly that row. -/
theorem filter_id_eq_singleton (ps : List Profile) (a : Profile)
    (hnd : (ps.map Profile.id).Nodup) (ha : a ∈ ps) :
    ps.filter (fun p => p.id == a.id) = [a] := by
  induction ps with
  | nil => cases ha
  | cons b t ih =>
    simp only [List.map_cons, List.nodup_cons] at hnd
    obtain ⟨hb, hndt⟩ := hnd
    rcases List.mem_cons.mp ha with rfl | hat
    · have ht : t.filter (fun p => p.id == a.id) = [] := by
        refine List.filter_eq_nil_iff.mpr ?_
        intro q hq
        simp only [beq_iff_eq]
        intro hqa
        exact hb (hqa ▸ List.mem_map_of_mem Profile.id hq)
      simp [List.filter_cons, ht]
    · have hbne : (b.id == a.id) = false := by
        simp only [beq_eq_false_iff_ne]
        intro he
        exact hb (he ▸ List.mem_map_of_mem Profile.id hat)
      simp [List.filter_cons, hbne, ih hndt hat]

/-- Helper: in a table whose ids are pairwise distinct, two member rows
with the same id are the same row. -/
theorem mem_eq_of_nodup_id (ps : List Profile) (a b : Profile)
    (hnd : (ps.map Profile.id).Nodup) (ha : a ∈ ps) (hb : b ∈ ps)
    (hid : a.id = b.id) : a = b :=
  List.inj_on_of_nodup_map hnd ha hb hid

/-- Helper: a successful findProfile returns a member row carrying the
looked-up id. -/
theorem findProfile_mem_id (ps : List Profile) (uid : UserId) (a : Profile)
    (h : findProfile ps uid = some a) : a ∈ ps ∧ a.id = uid := by
  refine ⟨List.mem_of_find?_eq_some h, ?_⟩
  have := List.find?_some h
  simpa [beq_iff_eq] using this

/-- Helper: a filter over a mapped list is the map of a filter. -/
theorem filter_map_comm {α β : Type} (f : α → β) (p : β → Bool) (l : List α) :
    (l.map f).filter p = (l.filter (fun a => p (f a))).map f := by
  induction l with
  | nil => rfl
  | cons x t ih =>
    by_cases h : p (f x) <;> simp [List.filter_cons, h, ih]


/-- C7: for a comment whose idea and author profile exist in tables
with pairwise-distinct profile ids: if the author is not the idea owner,
the owner receives exactly one notification of the type computed from
the author role (admin_comment for an admin author, user_comment
otherwise); if the author role is not admin, every admin receives
exactly one notification of type new_comment; and the author never
receives a notification from the own comment. -/
theorem comment_fanout_correct
    (profiles : List Profile) (ideas : List Idea) (c : Comment)
    (idea : Idea) (ap : Profile)
    (hi : findIdea ideas c.idea_id = some idea)
    (ha : findProfile profiles c.author_id = some ap)
    (hnd : (profiles.map Profile.id).Nodup) :
    (c.author_id ≠ idea.owner_id →
      ((handle_new_comment profiles ideas c).filter
          (fun n => n.user_id == idea.owner_id &&
            n.type == (if ap.role = .admin then "admin_comment" else "user_comment"))).length
        = 1) ∧
    (ap.role ≠ .admin → ∀ a ∈ profiles, a.role = .admin →
      ((handle_new_comment profiles ideas c).filter
          (fun n => n.user_id == a.id && n.type == "new_comment")).length = 1) ∧
    ((handle_new_comment profiles ideas c).filter
        (fun n => n.user_id == c.author_id)).length = 0 := by
  obtain ⟨hamem, haid⟩ := findProfile_mem_id profiles c.author_id ap ha
  have hns : handle_new_comment profiles ideas c =
      (if c.author_id = idea.owner_id then []
       else [⟨idea.owner_id, c.idea_id,
         (if ap.role = .admin then "admin_comment" else "user_comment"),
         NotifMeta.commentMeta c.id c.author_id⟩]) ++
      (if ap.role = .admin then []
       else (profiles.filter (fun p => p.role == UserRole.admin)).map
         (fun p => ⟨p.id, c.idea_id, "new_comment",
           NotifMeta.commentMeta c.id c.author_id⟩)) := by
    simp [handle_new_comment, hi, ha]
  refine ⟨?_, ?_, ?_⟩
  · intro hne
    rw [hns, List.filter_append, List.length_append]
    by_cases hadm : ap.role = UserRole.admin
    · simp [hne, hadm]
    · have hB : ((profiles.filter (fun p => p.role == UserRole.admin)).map
          (fun p => (⟨p.id, c.idea_id, "new_comment",
            NotifMeta.commentMeta c.id c.author_id⟩ : Notification))).filter
            (fun n => n.user_id == idea.owner_id && n.type == "user_comment") = [] := by
        refine List.filter_eq_nil_iff.mpr ?_
        intro n hn
        obtain ⟨p, hp, rfl⟩ := List.mem_map.mp hn
        simp
      simp [hne, hadm, hB]
  · intro hrole a hmem hadm
    rw [hns, List.filter_append, List.length_append]
    have hO : ((if c.author_id = idea.owner_id then ([] : List Notification)
        else [⟨idea.owner_id, c.idea_id,
          (if ap.role = .admin then "admin_comment" else "user_comment"),
          NotifMeta.commentMeta c.id c.author_id⟩]).filter
          (fun n => n.user_id == a.id && n.type == "new_comment")) = [] := by
      split
      · simp
      · simp [hrole]
    have h1 : ((profiles.filter (fun p => p.role == UserRole.admin)).map
        (fun p => (⟨p.id, c.idea_id, "new_comment",
          NotifMeta.commentMeta c.id c.author_id⟩ : Notification))).filter
          (fun n => n.user_id == a.id && n.type == "new_comment")
        = ((profiles.filter (fun p => p.role == UserRole.admin)).filter
            (fun p => p.id == a.id)).map
            (fun p => (⟨p.id, c.idea_id, "new_comment",
              NotifMeta.commentMeta c.id c.author_id⟩ : Notification)) := by
      rw [filter_map_comm]
      simp
    have h2 : ((profiles.filter (fun p => p.role == UserRole.admin)).filter
        (fun p => p.id == a.id)) = [a] := by
      rw [filter_swap, filter_id_eq_singleton profiles a hnd hmem]
      simp [List.filter_cons, hadm]
    simp [hO, hrole, h1, h2]
  · rw [hns, List.filter_append, List.length_append]
    have hO : ((if c.author_id = idea.owner_id then ([] : List Notification)
        else [⟨idea.owner_id, c.idea_id,
          (if ap.role = .admin then "admin_comment" else "user_comment"),
          NotifMeta.commentMeta c.id c.author_id⟩]).filter
          (fun n => n.user_id == c.author_id)) = [] := by
      split
      · simp
      · next h => simp [Ne.symm h]
    by_cases hadm : ap.role = UserRole.admin
    · simp [hO, hadm]
      exact fun h h2 => h h2.symm
    · have hB : ((profiles.filter (fun p => p.role == UserRole.admin)).map
          (fun p => (⟨p.id, c.idea_id, "new_comment",
            NotifMeta.commentMeta c.id c.author_id⟩ : Notification))).filter
            (fun n => n.user_id == c.author_id) = [] := by
        refine List.filter_eq_nil_iff.mpr ?_
        intro n hn
        obtain ⟨p, hp, rfl⟩ := List.mem_map.mp hn
        simp only [beq_iff_eq]
        intro hpid
        have hpmem : p ∈ profiles := (List.mem_filter.mp hp).1
        have hprole : (p.role == UserRole.admin) = true := (List.mem_filter.mp hp).2
        have hpap : p = ap :=
          mem_eq_of_nodup_id profiles p ap hnd hpmem hamem (by rw [hpid, haid])
        rw [hpap] at hprole
        simp [hadm] at hprole
      simp [hO, hadm, hB]
      exact fun h h2 => h h2.symm

/-- C7 witness: the theorem applied to a non-admin non-owner author
commenting on a draft idea in a table with two admins. -/
theorem comment_fanout_correct_witness :
    (("erin" : UserId) ≠ (⟨"i1", "alice", "T", "d", [], .draft⟩ : Idea).owner_id →
      ((handle_new_comment
          [⟨"alice", .owner⟩, ⟨"bobby", .admin⟩, ⟨"carol", .admin⟩, ⟨"erin", .owner⟩]
          [⟨"i1", "alice", "T", "d", [], .draft⟩]
          ⟨"c1", "i1", "erin", "nice"⟩).filter
          (fun n => n.user_id == (⟨"i1", "alice", "T", "d", [], .draft⟩ : Idea).owner_id &&
            n.type == (if (⟨"erin", UserRole.owner⟩ : Profile).role = .admin
              then "admin_comment" else "user_comment"))).length = 1) ∧
    ((⟨"erin", UserRole.owner⟩ : Profile).role ≠ .admin →
      ∀ a ∈ [(⟨"alice", .owner⟩ : Profile), ⟨"bobby", .admin⟩, ⟨"carol", .admin⟩,
          ⟨"erin", .owner⟩], a.role = .admin →
      ((handle_new_comment
          [⟨"alice", .owner⟩, ⟨"bobby", .admin⟩, ⟨"carol", .admin⟩, ⟨"erin", .owner⟩]
          [⟨"i1", "alice", "T", "d", [], .draft⟩]
          ⟨"c1", "i1", "erin", "nice"⟩).filter
          (fun n => n.user_id == a.id && n.type == "new_comment")).length = 1) ∧
    ((handle_new_comment
        [⟨"alice", .owner⟩, ⟨"bobby", .admin⟩, ⟨"carol", .admin⟩, ⟨"erin", .owner⟩]
        [⟨"i1", "alice", "T", "d", [], .draft⟩]
        ⟨"c1", "i1", "erin", "nice"⟩).filter
        (fun n => n.user_id == ("erin" : UserId))).length = 0 :=
  comment_fanout_correct
    [⟨"alice", .owner⟩, ⟨"bobby", .admin⟩, ⟨"carol", .admin⟩, ⟨"erin", .owner⟩]
    [⟨"i1", "alice", "T", "d", [], .draft⟩]
    ⟨"c1", "i1", "erin", "nice"⟩
    ⟨"i1", "alice", "T", "d", [], .draft⟩ ⟨"erin", .owner⟩
    (by decide) (by decide) (by decide)

/-- C8: every status change of an idea row produces exactly one
notification, of type status_change carrying the old and the new status,
addressed to the idea owner, and no notification for any other user. -/
theorem status_change_fanout (oldRow newRow : Idea)
    (hch : oldRow.status ≠ newRow.status) :
    handle_idea_status_change oldRow newRow =
      [⟨newRow.owner_id, newRow.id, "status_change",
        .statusMeta oldRow.status newRow.status⟩] ∧
    ∀ u : UserId, u ≠ newRow.owner_id →
      ((handle_idea_status_change oldRow newRow).filter
          (fun n => n.user_id == u)).length = 0 := by
  constructor
  · simp [handle_idea_status_change, hch]
  · intro u hu
    simp [handle_idea_status_change, hch, Ne.symm hu]

/-- C8 witness: the theorem applied to an approval transition. -/
theorem status_change_fanout_witness :
    handle_idea_status_change ⟨"i1", "alice", "T", "d", [], .submitted⟩
        ⟨"i1", "alice", "T", "d", [], .approved⟩ =
      [⟨"alice", "i1", "status_change", .statusMeta .submitted .approved⟩] ∧
    ∀ u : UserId, u ≠ (⟨"i1", "alice", "T", "d", [], .approved⟩ : Idea).owner_id →
      ((handle_idea_status_change ⟨"i1", "alice", "T", "d", [], .submitted⟩
          ⟨"i1", "alice", "T", "d", [], .approved⟩).filter
          (fun n => n.user_id == u)).length = 0 :=
  status_change_fanout ⟨"i1", "alice", "T", "d", [], .submitted⟩
    ⟨"i1", "alice", "T", "d", [], .approved⟩ (by decide)

/-- C9: an idea-helper call by an authenticated user whose count of
openai_logs rows since the start of the current day has reached the
daily limit is answered 429 Rate Limit Exceeded and the external service
is not invoked. -/
theorem rate_limit_blocks_external
    (profiles : List Profile) (logs : List OpenAiLog) (uid : UserId) (p : Profile)
    (dayStart dailyLimit : Nat) (body : AiBody) (ext : AiExternalResp)
    (hp : findProfile profiles uid = some p)
    (hb : aiBodyValid body = true)
    (hcount : dailyLimit ≤ countTodayLogs logs uid dayStart) :
    ideaHelperRoute false (some uid) profiles logs dayStart dailyLimit body ext =
      ⟨.err "Rate Limit Exceeded" 429, false⟩ := by
  simp [ideaHelperRoute, getCurrentUser, hp, withAuthCheck, hb, hcount]

/-- C9 witness: the theorem applied with daily limit 5 to a user with
exactly 5 openai_logs rows inside the current day (an older row of the
same user and a row of another user do not count), modelling the 6th
call of the day. -/
theorem rate_limit_blocks_external_witness :
    ideaHelperRoute false (some "u1") [⟨"u1", .owner⟩]
        [⟨"u1", 100⟩, ⟨"u1", 110⟩, ⟨"u1", 120⟩, ⟨"u1", 130⟩, ⟨"u1", 140⟩,
         ⟨"u1", 50⟩, ⟨"u2", 120⟩]
        100 5 ⟨"My idea", "Something new"⟩ (.good "x" []) =
      ⟨.err "Rate Limit Exceeded" 429, false⟩ :=
  rate_limit_blocks_external [⟨"u1", .owner⟩]
    [⟨"u1", 100⟩, ⟨"u1", 110⟩, ⟨"u1", 120⟩, ⟨"u1", 130⟩, ⟨"u1", 140⟩,
     ⟨"u1", 50⟩, ⟨"u2", 120⟩]
    "u1" ⟨"u1", .owner⟩ 100 5 ⟨"My idea", "Something new"⟩ (.good "x" [])
    (by decide) (by decide) (by decide)
